import Mathlib

/-!
Shallow embedding of the agent-debug record/replay core
(src/agent-debug/src/agent_debug/state_manager.py and decorators.py).

Python values are modelled by the inductive type PyVal.  Mutable Python
dicts are heap references (PyVal.dict with an address into a Heap);
immutable mapping values that nothing in the modelled code ever mutates
(dicts produced by json.load, the fresh inputs record built by the
wrapper) are modelled by the pure constructor PyVal.obj.  Non-JSON
objects such as live I/O handles are PyVal.handle.  Dict keys are
restricted to strings, which covers every dict the modelled code builds
or reads.  Floats (execution times, timestamps) are threaded through as
abstract PyVal parameters; no claim depends on float arithmetic.
-/

inductive NodeStatus
  | RUN
  | CACHED
deriving DecidableEq, Repr

inductive PyVal
  | none
  | bool (b : Bool)
  | int (n : Int)
  | str (s : String)
  | list (xs : List PyVal)
  | obj (fields : List (String × PyVal))
  | dict (addr : Nat)
  | status (st : NodeStatus)
  | handle (tag : String)

abbrev PyDict := List (String × PyVal)

mutual

def pyBeq : PyVal → PyVal → Bool
  | .none, .none => true
  | .bool a, .bool b => a == b
  | .int a, .int b => a == b
  | .str a, .str b => a == b
  | .list xs, .list ys => pyBeqList xs ys
  | .obj fs, .obj gs => pyBeqFields fs gs
  | .dict a, .dict b => a == b
  | .status a, .status b => a == b
  | .handle a, .handle b => a == b
  | _, _ => false

def pyBeqList : List PyVal → List PyVal → Bool
  | [], [] => true
  | x :: xs, y :: ys => pyBeq x y && pyBeqList xs ys
  | _, _ => false

def pyBeqFields : List (String × PyVal) → List (String × PyVal) → Bool
  | [], [] => true
  | (k, v) :: fs, (l, w) :: gs => k == l && pyBeq v w && pyBeqFields fs gs
  | _, _ => false

end

mutual

theorem pyBeq_refl : ∀ a : PyVal, pyBeq a a = true
  | .none => by simp [pyBeq]
  | .bool b => by simp [pyBeq]
  | .int n => by simp [pyBeq]
  | .str s => by simp [pyBeq]
  | .list xs =>
      have h := pyBeqList_refl xs
      by simpa [pyBeq] using h
  | .obj fs =>
      have h := pyBeqFields_refl fs
      by simpa [pyBeq] using h
  | .dict a => by simp [pyBeq]
  | .status st => by simp [pyBeq]
  | .handle t => by simp [pyBeq]

theorem pyBeqList_refl : ∀ xs : List PyVal, pyBeqList xs xs = true
  | [] => by simp [pyBeqList]
  | x :: xs =>
      have h1 := pyBeq_refl x
      have h2 := pyBeqList_refl xs
      by simp [pyBeqList, h1, h2]

theorem pyBeqFields_refl : ∀ fs : List (String × PyVal), pyBeqFields fs fs = true
  | [] => by simp [pyBeqFields]
  | (k, v) :: fs =>
      have h1 := pyBeq_refl v
      have h2 := pyBeqFields_refl fs
      by simp [pyBeqFields, h1, h2]

end

mutual

theorem pyBeq_sound : ∀ a b : PyVal, pyBeq a b = true → a = b
  | .none, .none, _ => rfl
  | .bool a, .bool b, h => congrArg PyVal.bool (by simpa [pyBeq] using h)
  | .int a, .int b, h => congrArg PyVal.int (by simpa [pyBeq] using h)
  | .str a, .str b, h => congrArg PyVal.str (by simpa [pyBeq] using h)
  | .list xs, .list ys, h => congrArg PyVal.list (pyBeqList_sound xs ys h)
  | .obj fs, .obj gs, h => congrArg PyVal.obj (pyBeqFields_sound fs gs h)
  | .dict a, .dict b, h => congrArg PyVal.dict (by simpa [pyBeq] using h)
  | .status a, .status b, h => congrArg PyVal.status (by simpa [pyBeq] using h)
  | .handle a, .handle b, h => congrArg PyVal.handle (by simpa [pyBeq] using h)
  | .none, .bool _, h | .none, .int _, h | .none, .str _, h | .none, .list _, h
  | .none, .obj _, h | .none, .dict _, h | .none, .status _, h | .none, .handle _, h
  | .bool _, .none, h | .bool _, .int _, h | .bool _, .str _, h | .bool _, .list _, h
  | .bool _, .obj _, h | .bool _, .dict _, h | .bool _, .status _, h | .bool _, .handle _, h
  | .int _, .none, h | .int _, .bool _, h | .int _, .str _, h | .int _, .list _, h
  | .int _, .obj _, h | .int _, .dict _, h | .int _, .status _, h | .int _, .handle _, h
  | .str _, .none, h | .str _, .bool _, h | .str _, .int _, h | .str _, .list _, h
  | .str _, .obj _, h | .str _, .dict _, h | .str _, .status _, h | .str _, .handle _, h
  | .list _, .none, h | .list _, .bool _, h | .list _, .int _, h | .list _, .str _, h
  | .list _, .obj _, h | .list _, .dict _, h | .list _, .status _, h | .list _, .handle _, h
  | .obj _, .none, h | .obj _, .bool _, h | .obj _, .int _, h | .obj _, .str _, h
  | .obj _, .list _, h | .obj _, .dict _, h | .obj _, .status _, h | .obj _, .handle _, h
  | .dict _, .none, h | .dict _, .bool _, h | .dict _, .int _, h | .dict _, .str _, h
  | .dict _, .list _, h | .dict _, .obj _, h | .dict _, .status _, h | .dict _, .handle _, h
  | .status _, .none, h | .status _, .bool _, h | .status _, .int _, h | .status _, .str _, h
  | .status _, .list _, h | .status _, .obj _, h | .status _, .dict _, h | .status _, .handle _, h
  | .handle _, .none, h | .handle _, .bool _, h | .handle _, .int _, h | .handle _, .str _, h
  | .handle _, .list _, h | .handle _, .obj _, h | .handle _, .dict _, h | .handle _, .status _, h =>
      absurd h (by simp [pyBeq])

theorem pyBeqList_sound : ∀ xs ys : List PyVal, pyBeqList xs ys = true → xs = ys
  | [], [], _ => rfl
  | [], _ :: _, h => absurd h (by simp [pyBeqList])
  | _ :: _, [], h => absurd h (by simp [pyBeqList])
  | x :: xs, y :: ys, h =>
      have h1 : pyBeq x y = true ∧ pyBeqList xs ys = true := by
        simpa [pyBeqList, Bool.and_eq_true] using h
      have e1 := pyBeq_sound x y h1.1
      have e2 := pyBeqList_sound xs ys h1.2
      by rw [e1, e2]

theorem pyBeqFields_sound : ∀ fs gs : List (String × PyVal), pyBeqFields fs gs = true → fs = gs
  | [], [], _ => rfl
  | [], _ :: _, h => absurd h (by simp [pyBeqFields])
  | _ :: _, [], h => absurd h (by simp [pyBeqFields])
  | (k, v) :: fs, (l, w) :: gs, h =>
      have h1 : (k == l) = true ∧ pyBeq v w = true ∧ pyBeqFields fs gs = true := by
        simpa [pyBeqFields, Bool.and_eq_true, and_assoc] using h
      have e0 : k = l := by simpa using h1.1
      have e1 := pyBeq_sound v w h1.2.1
      have e2 := pyBeqFields_sound fs gs h1.2.2
      by rw [e0, e1, e2]

end

instance : DecidableEq PyVal := fun a b =>
  if h : pyBeq a b = true then isTrue (pyBeq_sound a b h)
  else isFalse (fun he => h (he ▸ pyBeq_refl a))

abbrev Heap := List PyDict

def heapGet (h : Heap) (a : Nat) : PyDict :=
  h.getD a []

def heapSet (h : Heap) (a : Nat) (d : PyDict) : Heap :=
  h.set a d

/-- Python truthiness for the modelled value domain: None, False, 0, the
empty string and empty containers are falsy; enum members and arbitrary
objects are truthy.  A heap dict is truthy when its current contents are
non-empty. -/
def truthy (h : Heap) (v : PyVal) : Bool :=
  match v with
  | .none => false
  | .bool b => b
  | .int n => decide (n ≠ 0)
  | .str s => decide (s ≠ "")
  | .list xs => !xs.isEmpty
  | .obj fs => !fs.isEmpty
  | .dict a => !(heapGet h a).isEmpty
  | .status _ => true
  | .handle _ => true

/-- Checkpoint: a record of the state of a node at a given execution
attempt (state_manager.py, class Checkpoint).  Every field is a PyVal
because Python performs no type checking on them. -/
structure Checkpoint where
  session_id : PyVal
  inputs : PyVal
  output : PyVal
  execution_time : PyVal
  timestamp : PyVal
  status : PyVal
  error : PyVal
  shared_store_state : PyVal
deriving DecidableEq

/-- Checkpoint.__init__.  The Python body coerces falsy arguments with
or-expressions: timestamp or time.time(), status or NodeStatus.RUN,
error or None, shared_store_state or None.  The ambient clock value
time.time() is passed in as nowv; truthiness of a dict-valued argument
is judged against the heap at construction time. -/
def Checkpoint.init (h : Heap) (session_id inputs output execution_time timestamp status error shared_store_state nowv : PyVal) : Checkpoint :=
  { session_id := session_id
    inputs := inputs
    output := output
    execution_time := execution_time
    timestamp := if truthy h timestamp then timestamp else nowv
    status := if truthy h status then status else PyVal.status NodeStatus.RUN
    error := if truthy h error then error else PyVal.none
    shared_store_state := if truthy h shared_store_state then shared_store_state else PyVal.none }

/-- Node: a node identity together with its checkpoint history
(state_manager.py, class Node).  The id is a PyVal because the import
path stores whatever value the document holds. -/
structure Node where
  id : PyVal
  checkpoints : List Checkpoint
deriving DecidableEq

/-- StateManager (state_manager.py).  self.nodes is a Python dict from
node id to Node, modelled as an insertion-ordered association list.
The threading lock serialises every operation; since each modelled
operation is one atomic function, the lock itself needs no
representation.  The unused shared_store attribute is omitted. -/
structure StateManager where
  nodes : List (PyVal × Node)
  session_id : Int
deriving DecidableEq

def lookupNode : List (PyVal × Node) → PyVal → Option Node
  | [], _ => Option.none
  | (k, n) :: rest, key => if k = key then some n else lookupNode rest key

def setNode : List (PyVal × Node) → PyVal → Node → List (PyVal × Node)
  | [], _, _ => []
  | (k, n) :: rest, key, nv =>
      if k = key then (k, nv) :: rest else (k, n) :: setNode rest key nv

/-- Python dict insertion: an existing key keeps its position and gets the
new value, a fresh key is appended. -/
def upsertNode (l : List (PyVal × Node)) (key : PyVal) (nv : Node) : List (PyVal × Node) :=
  match lookupNode l key with
  | some _ => setNode l key nv
  | Option.none => l ++ [(key, nv)]

/-- StateManager.add_checkpoint: builds a Checkpoint from the current
session id with default timestamp (the current time nowv), default
status and error, and appends it to the node history, creating the
history if absent. -/
def StateManager.add_checkpoint (m : StateManager) (h : Heap) (node_id : PyVal) (inputs output execution_time shared_store_state nowv : PyVal) : StateManager :=
  let cp := Checkpoint.init h (PyVal.int m.session_id) inputs output execution_time PyVal.none (PyVal.status NodeStatus.RUN) PyVal.none shared_store_state nowv
  match lookupNode m.nodes node_id with
  | some n => { m with nodes := setNode m.nodes node_id { n with checkpoints := n.checkpoints ++ [cp] } }
  | Option.none => { m with nodes := m.nodes ++ [(node_id, { id := node_id, checkpoints := [cp] })] }

/-- StateManager.get_checkpoint: the latest checkpoint of the node, or
None when the node is unknown or its history is empty. -/
def StateManager.get_checkpoint (m : StateManager) (node_id : PyVal) : Option Checkpoint :=
  match lookupNode m.nodes node_id with
  | some n => n.checkpoints.getLast?
  | Option.none => Option.none

/-!
Instrumentation wrapper (decorators.py).  The wrapped callable is a
parameter func taking the heap, the positional arguments and the
keyword arguments, and returning the possibly mutated heap together
with either an output value or a raised exception.  The ambient
singleton state_manager is threaded explicitly.  time.thread_time
measurements are ambient: the measured difference end_time minus
start_time enters as the parameter exet, and time.time() as nowv.
-/

inductive PyErr
  | keyError
  | typeErr
  | valueErr
  | userErr (msg : String)
deriving DecidableEq

/-- find_shared (decorators.py): the first positional argument that is a
dict.  Immutable PyVal.obj values model parsed JSON documents, which
never appear among wrapper arguments; wrapper theorems therefore carry
a noObjArgs hypothesis. -/
def find_shared : List PyVal → Option PyVal
  | [] => Option.none
  | PyVal.dict a :: _ => some (PyVal.dict a)
  | _ :: rest => find_shared rest

def PyVal.isObj : PyVal → Bool
  | .obj _ => true
  | _ => false

def noObjArgs (args : List PyVal) : Bool :=
  args.all (fun a => ! a.isObj)

inductive SerResult
  | ok
  | typeErr
  | circularErr
deriving DecidableEq

/-- Keeps the first non-ok outcome, mirroring the first exception raised
along the traversal of json.dumps. -/
def serAnd : SerResult → SerResult → SerResult
  | .ok, r => r
  | e, _ => e

/-- json.dumps serializability of a value: handles and enum members are
not JSON serializable (TypeError); a reference cycle through dicts
raises ValueError (Circular reference detected), detected by the stack
of dict addresses currently being traversed, checked before any fuel is
spent.  Fuel only bounds the nesting depth of the traversal; serFuel
below always supplies more than any cycle-free traversal of the given
value through the given heap can use, so the fuel-exhausted answer is
unreachable from the wrapper. -/
def checkSer (h : Heap) : Nat → List Nat → PyVal → SerResult
  | 0, _, _ => .circularErr
  | n + 1, stack, v =>
      match v with
      | .none => .ok
      | .bool _ => .ok
      | .int _ => .ok
      | .str _ => .ok
      | .status _ => .typeErr
      | .handle _ => .typeErr
      | .list xs => xs.foldl (fun acc x => serAnd acc (checkSer h n stack x)) .ok
      | .obj fs => fs.foldl (fun acc p => serAnd acc (checkSer h n stack p.2)) .ok
      | .dict a =>
          if a ∈ stack then .circularErr
          else (heapGet h a).foldl (fun acc p => serAnd acc (checkSer h n (a :: stack) p.2)) .ok

mutual

def pyHeight : PyVal → Nat
  | .list xs => pyHeightList xs + 1
  | .obj fs => pyHeightFields fs + 1
  | _ => 1

def pyHeightList : List PyVal → Nat
  | [] => 0
  | x :: rest => max (pyHeight x) (pyHeightList rest)

def pyHeightFields : PyDict → Nat
  | [] => 0
  | (_, v) :: rest => max (pyHeight v) (pyHeightFields rest)

end

/-- An upper bound on the nesting depth any cycle-free traversal of v
can reach: the height of v itself, plus one full pass through every
distinct heap dict (a deeper chain would revisit an address and be
reported circular first), plus slack for out-of-range references. -/
def serFuel (h : Heap) (v : PyVal) : Nat :=
  pyHeight v + (h.length + 1) * (h.foldl (fun acc d => max acc (pyHeightFields d)) 0 + 2) + 1

def joinComma : List String → String
  | [] => ""
  | [s] => s
  | s :: rest => s ++ ", " ++ joinComma rest

/-- Python str() rendering used by the lossy input fallback.  The exact
text is immaterial to every modelled observation; the rendering is a
plausible total approximation, with fuel bounding nesting depth. -/
def pyStr (h : Heap) : Nat → PyVal → String
  | 0, _ => "..."
  | n + 1, v =>
      match v with
      | .none => "None"
      | .bool true => "True"
      | .bool false => "False"
      | .int k => toString k
      | .str s => s
      | .list xs => "[" ++ joinComma (xs.map (pyStr h n)) ++ "]"
      | .obj fs => "\x7b" ++ joinComma (fs.map (fun p => p.1 ++ ": " ++ pyStr h n p.2)) ++ "\x7d"
      | .dict a => "\x7b" ++ joinComma ((heapGet h a).map (fun p => p.1 ++ ": " ++ pyStr h n p.2)) ++ "\x7d"
      | .status NodeStatus.RUN => "NodeStatus.RUN"
      | .status NodeStatus.CACHED => "NodeStatus.CACHED"
      | .handle t => t

inductive CallResult
  | ok (v : PyVal)
  | raised (e : PyErr)
deriving DecidableEq

/-- A wrapped callable: takes the heap, the positional and the keyword
arguments, may mutate the heap, and returns an output or raises. -/
abbrev PyFunc := Heap → List PyVal → PyDict → Heap × CallResult

/-- Result of one call through the instrumentation wrapper: the state
manager and heap after the call together with the returned value or the
propagated exception. -/
structure WrapResult where
  manager : StateManager
  heap : Heap
  result : CallResult
deriving DecidableEq

/-- The inputs record built on the record path:
inputs = ("args": args, "kwargs": kwargs) as a fresh dict. -/
def inputsVal (args : List PyVal) (kwargs : PyDict) : PyVal :=
  PyVal.obj [("args", PyVal.list args), ("kwargs", PyVal.obj kwargs)]

/-- The json.dumps(inputs) serializability test of the record path. -/
def serCheck (h : Heap) (args : List PyVal) (kwargs : PyDict) : SerResult :=
  checkSer h (serFuel h (inputsVal args kwargs)) [] (inputsVal args kwargs)

/-- The lossy fallback taken when json.dumps raises TypeError or
OverflowError: inputs = ("args": str(args), "kwargs": str(kwargs),
"unserializable": True). -/
def fallbackInputs (h : Heap) (args : List PyVal) (kwargs : PyDict) : PyVal :=
  PyVal.obj [("args", PyVal.str (pyStr h (serFuel h (PyVal.list args)) (PyVal.list args))),
             ("kwargs", PyVal.str (pyStr h (serFuel h (PyVal.obj kwargs)) (PyVal.obj kwargs))),
             ("unserializable", PyVal.bool true)]

/-- Reading a value as a mapping, as dict.update does: a heap dict is
read at its current contents, an immutable obj at its fields; anything
else raises TypeError. -/
def asMapping (h : Heap) : PyVal → Option PyDict
  | .dict a => some (heapGet h a)
  | .obj fs => some fs
  | _ => Option.none

/-- The replay branch of the wrapper: if the arguments hold a shared
dict, clear it in place and repopulate it from the checkpoint snapshot
(dict.update reads the snapshot after the clear, which matters when the
snapshot aliases the shared dict itself), then return the stored
output; without a shared dict just return the stored output. -/
def replayPath (cp : Checkpoint) (m : StateManager) (h : Heap) (args : List PyVal) : WrapResult :=
  match find_shared args with
  | some (PyVal.dict a) =>
      let h1 := heapSet h a []
      match asMapping h1 cp.shared_store_state with
      | some items => ⟨m, heapSet h1 a items, CallResult.ok cp.output⟩
      | Option.none => ⟨m, h1, CallResult.raised PyErr.typeErr⟩
  | _ => ⟨m, h, CallResult.ok cp.output⟩

/-- The record branch of the wrapper: run the callable (an exception
propagates before any bookkeeping), test input serializability (an
uncaught ValueError from a circular reference propagates; TypeError and
OverflowError degrade to the string fallback), locate the shared dict
and append one checkpoint whose snapshot argument is that live dict
reference (or None). -/
def recordPath (node_id : String) (func : PyFunc) (m : StateManager) (h : Heap) (args : List PyVal) (kwargs : PyDict) (exet nowv : PyVal) : WrapResult :=
  match func h args kwargs with
  | (h1, CallResult.raised e) => ⟨m, h1, CallResult.raised e⟩
  | (h1, CallResult.ok output) =>
      match serCheck h1 args kwargs with
      | SerResult.circularErr => ⟨m, h1, CallResult.raised PyErr.valueErr⟩
      | s =>
          let inputs := match s with
            | SerResult.typeErr => fallbackInputs h1 args kwargs
            | _ => inputsVal args kwargs
          let sharedv := (find_shared args).getD PyVal.none
          ⟨m.add_checkpoint h1 (PyVal.str node_id) inputs output exet sharedv nowv, h1, CallResult.ok output⟩

/-- recordable_node.wrapper (decorators.py): node_id is the qualified
name of the wrapped callable; a cached checkpoint whose
shared_store_state is truthy triggers the replay branch, anything else
the record branch. -/
def wrapper (node_id : String) (func : PyFunc) (m : StateManager) (h : Heap) (args : List PyVal) (kwargs : PyDict) (exet nowv : PyVal) : WrapResult :=
  match m.get_checkpoint (PyVal.str node_id) with
  | some cp =>
      if truthy h cp.shared_store_state then replayPath cp m h args
      else recordPath node_id func m h args kwargs exet nowv
  | Option.none => recordPath node_id func m h args kwargs exet nowv

/-- The test the wrapper branches on: a cached checkpoint exists and its
shared_store_state is truthy. -/
def replayCondB (m : StateManager) (h : Heap) (node_id : String) : Bool :=
  match m.get_checkpoint (PyVal.str node_id) with
  | some cp => truthy h cp.shared_store_state
  | Option.none => false

/-!
Persistence codec (state_manager.py, to_json / to_file /
checkpoints_from_file).  File access and json.load are ambient: the
parsed document enters the embedding as a PyVal built from the
constructors none, bool, int, str, list and obj (parsed JSON holds no
heap dicts, handles or enum members).
-/

def lookupField : PyDict → String → Option PyVal
  | [], _ => Option.none
  | (k, v) :: rest, key => if k = key then some v else lookupField rest key

/-- Python subscript v[key] with a string key, as exercised on parsed
JSON: a dict yields the value or raises KeyError; strings and lists
want integer indices and raise TypeError; every other value is not
subscriptable and raises TypeError. -/
def subscript (v : PyVal) (key : String) : Except PyErr PyVal :=
  match v with
  | .obj fs =>
      match lookupField fs key with
      | some x => Except.ok x
      | Option.none => Except.error PyErr.keyError
  | _ => Except.error PyErr.typeErr

/-- Python iteration over parsed JSON: a list yields its elements, a
dict its keys, a string its characters; anything else raises
TypeError. -/
def pyIter (v : PyVal) : Except PyErr (List PyVal) :=
  match v with
  | .list xs => Except.ok xs
  | .obj fs => Except.ok (fs.map (fun p => PyVal.str p.1))
  | .str s => Except.ok (s.toList.map (fun c => PyVal.str (String.singleton c)))
  | _ => Except.error PyErr.typeErr

/-- One checkpoint of the loaded document: the seven subscripts are read
in the argument order of the Checkpoint call; status and error are
passed through as parsed (no enum conversion), shared_store_state is
not passed at all and so defaults to None.  Parsed JSON holds no heap
references, hence the empty heap for the truthiness coercions. -/
def parseCheckpoint (cv : PyVal) (nowv : PyVal) : Except PyErr Checkpoint := do
  let sid ← subscript cv "session_id"
  let inp ← subscript cv "inputs"
  let out ← subscript cv "output"
  let ext ← subscript cv "execution_time"
  let ts ← subscript cv "timestamp"
  let st ← subscript cv "status"
  let er ← subscript cv "error"
  Except.ok (Checkpoint.init [] sid inp out ext ts st er PyVal.none nowv)

def parseNode (nv : PyVal) (nowv : PyVal) : Except PyErr (PyVal × Node) := do
  let idv ← subscript nv "id"
  let cpsv ← subscript nv "checkpoints"
  let cpList ← pyIter cpsv
  let cps ← cpList.mapM (fun cv => parseCheckpoint cv nowv)
  Except.ok (idv, { id := idv, checkpoints := cps })

/-- The dict comprehension of checkpoints_from_file applied to the
parsed document. -/
def parseNodes (data : PyVal) (nowv : PyVal) : Except PyErr (List (PyVal × Node)) := do
  let nodesv ← subscript data "nodes"
  let nodeList ← pyIter nodesv
  nodeList.foldlM (fun acc nv => do
      let kn ← parseNode nv nowv
      Except.ok (upsertNode acc kn.1 kn.2)) []

/-- StateManager.checkpoints_from_file: the file is opened and parsed by
json.load, entering here as data.  The dict comprehension is evaluated
in full before the assignment to self.nodes, so an error raised while
parsing leaves nodes untouched; the embedding mirrors this by computing
the whole parse before updating the field, returning the raised error
alongside the (possibly unchanged) manager. -/
def StateManager.checkpoints_from_file (m : StateManager) (data nowv : PyVal) : StateManager × Option PyErr :=
  match parseNodes data nowv with
  | Except.ok ns => ({ m with nodes := ns }, Option.none)
  | Except.error e => (m, some e)

/-- json.dumps(self.nodes): the nodes dict maps node ids to Node class
instances, which the default encoder rejects with TypeError("Object of
type Node is not JSON serializable"); only the empty dict serializes,
to the two-character text of an empty JSON object. -/
def dumpsNodesDict (nodes : List (PyVal × Node)) : Except PyErr String :=
  match nodes with
  | [] => Except.ok "\x7b\x7d"
  | _ => Except.error PyErr.typeErr

/-- StateManager.to_json: the outer json.dumps output is modelled as the
JSON value it denotes (textual JSON and the modelled value domain are
in bijection on this fragment); the inner json.dumps result is the
string stored under the nodes key. -/
def StateManager.to_json (m : StateManager) : Except PyErr PyVal := do
  let nodesStr ← dumpsNodesDict m.nodes
  Except.ok (PyVal.obj [("session_id", PyVal.int m.session_id), ("nodes", PyVal.str nodesStr)])

instance {ε α : Type} [DecidableEq ε] [DecidableEq α] : DecidableEq (Except ε α) := fun x y =>
  match x, y with
  | Except.ok a, Except.ok b =>
      if h : a = b then isTrue (by rw [h]) else isFalse (fun he => h (Except.ok.inj he))
  | Except.error a, Except.error b =>
      if h : a = b then isTrue (by rw [h]) else isFalse (fun he => h (Except.error.inj he))
  | Except.ok _, Except.error _ => isFalse (fun he => Except.noConfusion he)
  | Except.error _, Except.ok _ => isFalse (fun he => Except.noConfusion he)


/-!
Helper lemmas about the embedding, shared by the claim theorems below.
-/

def PyVal.isMappingShaped : PyVal → Bool
  | .dict _ => true
  | .obj _ => true
  | _ => false

theorem find_shared_shape : ∀ (args : List PyVal) (v : PyVal), find_shared args = some v → ∃ a, v = PyVal.dict a
  | [], _, h => by simp [find_shared] at h
  | PyVal.dict a :: _, v, h => by
      simp [find_shared] at h
      exact ⟨a, h.symm⟩
  | PyVal.none :: rest, v, h => find_shared_shape rest v (by simpa [find_shared] using h)
  | PyVal.bool _ :: rest, v, h => find_shared_shape rest v (by simpa [find_shared] using h)
  | PyVal.int _ :: rest, v, h => find_shared_shape rest v (by simpa [find_shared] using h)
  | PyVal.str _ :: rest, v, h => find_shared_shape rest v (by simpa [find_shared] using h)
  | PyVal.list _ :: rest, v, h => find_shared_shape rest v (by simpa [find_shared] using h)
  | PyVal.obj _ :: rest, v, h => find_shared_shape rest v (by simpa [find_shared] using h)
  | PyVal.status _ :: rest, v, h => find_shared_shape rest v (by simpa [find_shared] using h)
  | PyVal.handle _ :: rest, v, h => find_shared_shape rest v (by simpa [find_shared] using h)

theorem wrapper_record_branch (node_id : String) (func : PyFunc) (m : StateManager) (h : Heap) (args : List PyVal) (kwargs : PyDict) (exet nowv : PyVal) (hc : replayCondB m h node_id = false) :
    wrapper node_id func m h args kwargs exet nowv = recordPath node_id func m h args kwargs exet nowv := by
  unfold wrapper
  unfold replayCondB at hc
  cases hm : m.get_checkpoint (PyVal.str node_id) with
  | none => simp
  | some cp =>
      rw [hm] at hc
      have hc2 : truthy h cp.shared_store_state = false := hc
      simp [hc2]

theorem wrapper_replay_branch (node_id : String) (func : PyFunc) (m : StateManager) (h : Heap) (args : List PyVal) (kwargs : PyDict) (exet nowv : PyVal) (cp : Checkpoint) (hm : m.get_checkpoint (PyVal.str node_id) = some cp) (ht : truthy h cp.shared_store_state = true) :
    wrapper node_id func m h args kwargs exet nowv = replayPath cp m h args := by
  unfold wrapper
  rw [hm]
  simp [ht]

theorem replayPath_result (cp : Checkpoint) (m : StateManager) (h : Heap) (args : List PyVal) (hs : cp.shared_store_state.isMappingShaped = true) :
    (replayPath cp m h args).result = CallResult.ok cp.output ∧ (replayPath cp m h args).manager = m := by
  unfold replayPath
  cases hf : find_shared args with
  | none => exact ⟨rfl, rfl⟩
  | some v =>
      obtain ⟨a, rfl⟩ := find_shared_shape args v hf
      cases hss : cp.shared_store_state with
      | dict b => simp [asMapping]
      | obj fs => simp [asMapping]
      | none => rw [hss] at hs; simp [PyVal.isMappingShaped] at hs
      | bool x => rw [hss] at hs; simp [PyVal.isMappingShaped] at hs
      | int x => rw [hss] at hs; simp [PyVal.isMappingShaped] at hs
      | str x => rw [hss] at hs; simp [PyVal.isMappingShaped] at hs
      | list x => rw [hss] at hs; simp [PyVal.isMappingShaped] at hs
      | status x => rw [hss] at hs; simp [PyVal.isMappingShaped] at hs
      | handle x => rw [hss] at hs; simp [PyVal.isMappingShaped] at hs

theorem lookupNode_append_none (l : List (PyVal × Node)) (k : PyVal) (n : Node) (hl : lookupNode l k = Option.none) :
    lookupNode (l ++ [(k, n)]) k = some n := by
  induction l with
  | nil => simp [lookupNode]
  | cons p rest ih =>
      obtain ⟨pk, pn⟩ := p
      by_cases he : pk = k
      · simp [lookupNode, he] at hl
      · simp [lookupNode, he] at hl ⊢
        exact ih hl

theorem lookupNode_setNode_self (l : List (PyVal × Node)) (k : PyVal) (n0 n : Node) (hl : lookupNode l k = some n0) :
    lookupNode (setNode l k n) k = some n := by
  induction l with
  | nil => simp [lookupNode] at hl
  | cons p rest ih =>
      obtain ⟨pk, pn⟩ := p
      by_cases he : pk = k
      · simp [lookupNode, setNode, he]
      · simp [lookupNode, setNode, he] at hl ⊢
        exact ih hl

theorem get_checkpoint_add (m : StateManager) (h : Heap) (node_id : PyVal) (inputs output execution_time shared_store_state nowv : PyVal) :
    (m.add_checkpoint h node_id inputs output execution_time shared_store_state nowv).get_checkpoint node_id =
      some (Checkpoint.init h (PyVal.int m.session_id) inputs output execution_time PyVal.none (PyVal.status NodeStatus.RUN) PyVal.none shared_store_state nowv) := by
  unfold StateManager.add_checkpoint StateManager.get_checkpoint
  cases hl : lookupNode m.nodes node_id with
  | none =>
      simp only []
      rw [lookupNode_append_none m.nodes node_id _ hl]
      simp
  | some n =>
      simp only []
      rw [lookupNode_setNode_self m.nodes node_id n _ hl]
      simp

theorem recordPath_raised (node_id : String) (func : PyFunc) (m : StateManager) (h h1 : Heap) (args : List PyVal) (kwargs : PyDict) (exet nowv : PyVal) (e : PyErr) (hf : func h args kwargs = (h1, CallResult.raised e)) :
    recordPath node_id func m h args kwargs exet nowv = ⟨m, h1, CallResult.raised e⟩ := by
  simp [recordPath, hf]

theorem recordPath_ok_serOk (node_id : String) (func : PyFunc) (m : StateManager) (h h1 : Heap) (args : List PyVal) (kwargs : PyDict) (exet nowv output : PyVal) (hf : func h args kwargs = (h1, CallResult.ok output)) (hs : serCheck h1 args kwargs = SerResult.ok) :
    recordPath node_id func m h args kwargs exet nowv =
      ⟨m.add_checkpoint h1 (PyVal.str node_id) (inputsVal args kwargs) output exet ((find_shared args).getD PyVal.none) nowv, h1, CallResult.ok output⟩ := by
  simp [recordPath, hf, hs]

theorem recordPath_ok_serFallback (node_id : String) (func : PyFunc) (m : StateManager) (h h1 : Heap) (args : List PyVal) (kwargs : PyDict) (exet nowv output : PyVal) (hf : func h args kwargs = (h1, CallResult.ok output)) (hs : serCheck h1 args kwargs = SerResult.typeErr) :
    recordPath node_id func m h args kwargs exet nowv =
      ⟨m.add_checkpoint h1 (PyVal.str node_id) (fallbackInputs h1 args kwargs) output exet ((find_shared args).getD PyVal.none) nowv, h1, CallResult.ok output⟩ := by
  simp [recordPath, hf, hs]

theorem recordPath_circular (node_id : String) (func : PyFunc) (m : StateManager) (h h1 : Heap) (args : List PyVal) (kwargs : PyDict) (exet nowv output : PyVal) (hf : func h args kwargs = (h1, CallResult.ok output)) (hs : serCheck h1 args kwargs = SerResult.circularErr) :
    recordPath node_id func m h args kwargs exet nowv = ⟨m, h1, CallResult.raised PyErr.valueErr⟩ := by
  simp [recordPath, hf, hs]

/-- Total number of checkpoints held by the manager, over all nodes. -/
def totalCps (m : StateManager) : Nat :=
  (m.nodes.map (fun kn => kn.2.checkpoints.length)).sum

theorem sum_setNode_append (l : List (PyVal × Node)) (k : PyVal) (n0 : Node) (cp : Checkpoint) (hl : lookupNode l k = some n0) :
    ((setNode l k { n0 with checkpoints := n0.checkpoints ++ [cp] }).map (fun kn => kn.2.checkpoints.length)).sum =
      ((l.map (fun kn => kn.2.checkpoints.length)).sum) + 1 := by
  induction l with
  | nil => simp [lookupNode] at hl
  | cons p rest ih =>
      obtain ⟨pk, pn⟩ := p
      by_cases he : pk = k
      · simp [lookupNode, he] at hl
        subst hl
        simp [setNode, he, List.length_append]
        omega
      · simp [lookupNode, he] at hl
        simp [setNode, he, ih hl]
        omega

theorem totalCps_add (m : StateManager) (h : Heap) (node_id : PyVal) (inputs output execution_time shared_store_state nowv : PyVal) :
    totalCps (m.add_checkpoint h node_id inputs output execution_time shared_store_state nowv) = totalCps m + 1 := by
  unfold StateManager.add_checkpoint totalCps
  cases hl : lookupNode m.nodes node_id with
  | none => simp
  | some n => simpa using sum_setNode_append m.nodes node_id n _ hl

/-- The status and error fields of every checkpoint the manager holds
are the RUN enum member and None respectively. -/
def cpRunNoErr (cp : Checkpoint) : Bool :=
  decide (cp.status = PyVal.status NodeStatus.RUN) && decide (cp.error = PyVal.none)

def allRunB (m : StateManager) : Bool :=
  m.nodes.all (fun kn => kn.2.checkpoints.all cpRunNoErr)

theorem init_default_status_error (h : Heap) (session_id inputs output execution_time shared_store_state nowv : PyVal) :
    (Checkpoint.init h session_id inputs output execution_time PyVal.none (PyVal.status NodeStatus.RUN) PyVal.none shared_store_state nowv).status = PyVal.status NodeStatus.RUN ∧
    (Checkpoint.init h session_id inputs output execution_time PyVal.none (PyVal.status NodeStatus.RUN) PyVal.none shared_store_state nowv).error = PyVal.none := by
  constructor <;> simp [Checkpoint.init, truthy]

theorem all_setNode {P : PyVal × Node → Bool} (l : List (PyVal × Node)) (k : PyVal) (nv : Node) (hall : l.all P = true) (hnew : P (k, nv) = true) :
    (setNode l k nv).all P = true := by
  induction l with
  | nil => simp [setNode]
  | cons p rest ih =>
      obtain ⟨pk, pn⟩ := p
      rw [List.all_cons, Bool.and_eq_true] at hall
      by_cases he : pk = k
      · simp [setNode, he, List.all_cons, hnew, hall.2]
      · simp [setNode, he, List.all_cons, hall.1, ih hall.2]

theorem lookupNode_all {P : PyVal × Node → Bool} (l : List (PyVal × Node)) (k : PyVal) (n : Node) (hall : l.all P = true) (hl : lookupNode l k = some n) :
    P (k, n) = true := by
  induction l with
  | nil => simp [lookupNode] at hl
  | cons p rest ih =>
      obtain ⟨pk, pn⟩ := p
      rw [List.all_cons, Bool.and_eq_true] at hall
      by_cases he : pk = k
      · simp [lookupNode, he] at hl
        subst he
        subst hl
        exact hall.1
      · simp [lookupNode, he] at hl
        exact ih hall.2 hl

theorem allRunB_add (m : StateManager) (h : Heap) (node_id : PyVal) (inputs output execution_time shared_store_state nowv : PyVal) (hm : allRunB m = true) :
    allRunB (m.add_checkpoint h node_id inputs output execution_time shared_store_state nowv) = true := by
  have hnew := init_default_status_error h (PyVal.int m.session_id) inputs output execution_time shared_store_state nowv
  unfold StateManager.add_checkpoint allRunB
  unfold allRunB at hm
  cases hl : lookupNode m.nodes node_id with
  | none =>
      simp [List.all_append, hm, List.all_cons, cpRunNoErr, hnew.1, hnew.2]
  | some n =>
      have hn : n.checkpoints.all cpRunNoErr = true := lookupNode_all m.nodes node_id n hm hl
      apply all_setNode m.nodes node_id _ hm
      simp [List.all_append, hn, List.all_cons, cpRunNoErr, hnew.1, hnew.2]

/-!
Claim theorems.
-/

/-- C9: every checkpoint stored through add_checkpoint has status RUN and
error None: the fresh manager satisfies the invariant, add_checkpoint
preserves it, and the checkpoint just appended carries exactly these
defaults, so the CACHED member is never recorded by the core. -/
theorem C9_add_checkpoint_always_run_no_error :
    (∀ sid : Int, allRunB { nodes := [], session_id := sid } = true) ∧
    (∀ (m : StateManager) (h : Heap) (node_id inputs output execution_time shared_store_state nowv : PyVal),
        allRunB m = true →
        allRunB (m.add_checkpoint h node_id inputs output execution_time shared_store_state nowv) = true) ∧
    (∀ (m : StateManager) (h : Heap) (node_id inputs output execution_time shared_store_state nowv : PyVal) (cp : Checkpoint),
        (m.add_checkpoint h node_id inputs output execution_time shared_store_state nowv).get_checkpoint node_id = some cp →
        cp.status = PyVal.status NodeStatus.RUN ∧ cp.error = PyVal.none) := by
  refine ⟨fun sid => rfl, fun m h node_id i o e sh nw hm => allRunB_add m h node_id i o e sh nw hm, ?_⟩
  intro m h node_id i o e sh nw cp hcp
  rw [get_checkpoint_add] at hcp
  have hcp2 := Option.some.inj hcp
  rw [← hcp2]
  exact init_default_status_error h (PyVal.int m.session_id) i o e sh nw

/-- C9 witness: the invariant holds concretely on a fresh manager and
after one concrete add_checkpoint. -/
theorem C9_witness :
    allRunB { nodes := [], session_id := 100 } = true ∧
    allRunB (StateManager.add_checkpoint { nodes := [], session_id := 100 } [] (PyVal.str "n") (PyVal.int 1) (PyVal.int 2) (PyVal.int 0) PyVal.none (PyVal.int 5)) = true :=
  ⟨C9_add_checkpoint_always_run_no_error.1 100,
   C9_add_checkpoint_always_run_no_error.2.1 { nodes := [], session_id := 100 } [] (PyVal.str "n") (PyVal.int 1) (PyVal.int 2) (PyVal.int 0) PyVal.none (PyVal.int 5) (by decide)⟩

/-- C6: when the record branch is taken and the wrapped callable raises,
the exception propagates unchanged and the manager is left exactly as it
was, so no checkpoint is written for the failed attempt and the next
call records again. -/
theorem C6_record_failure_propagates_no_checkpoint (node_id : String) (func : PyFunc) (m : StateManager) (h h1 : Heap) (args : List PyVal) (kwargs : PyDict) (exet nowv : PyVal) (e : PyErr)
    (hc : replayCondB m h node_id = false)
    (hf : func h args kwargs = (h1, CallResult.raised e)) :
    wrapper node_id func m h args kwargs exet nowv = ⟨m, h1, CallResult.raised e⟩ := by
  rw [wrapper_record_branch node_id func m h args kwargs exet nowv hc]
  exact recordPath_raised node_id func m h h1 args kwargs exet nowv e hf

/-- C6 witness: a concrete raising callable on a fresh manager. -/
theorem C6_witness :
    replayCondB { nodes := [], session_id := 100 } [] "n" = false ∧
    wrapper "n" (fun h _ _ => (h, CallResult.raised (PyErr.userErr "boom"))) { nodes := [], session_id := 100 } [] [PyVal.int 5] [] (PyVal.int 0) (PyVal.int 7) =
      ⟨{ nodes := [], session_id := 100 }, [], CallResult.raised (PyErr.userErr "boom")⟩ :=
  ⟨by decide,
   C6_record_failure_propagates_no_checkpoint "n" (fun h _ _ => (h, CallResult.raised (PyErr.userErr "boom"))) { nodes := [], session_id := 100 } [] [] [PyVal.int 5] [] (PyVal.int 0) (PyVal.int 7) (PyErr.userErr "boom") (by decide) rfl⟩

def c1Func1 : PyFunc := fun h _ _ => (h, CallResult.ok (PyVal.int 1))

def c1Func2 : PyFunc := fun h _ _ => (h, CallResult.ok (PyVal.int 2))

def c1FirstCall : WrapResult :=
  wrapper "n" c1Func1 { nodes := [], session_id := 100 } [] [PyVal.int 5] [] (PyVal.int 0) (PyVal.int 7)

def c1SecondCall : WrapResult :=
  wrapper "n" c1Func2 c1FirstCall.manager [] [PyVal.int 5] [] (PyVal.int 0) (PyVal.int 8)

/-- C1 counterexample: a callable taking no mapping argument is recorded
successfully (output 1, one checkpoint with the stored output), yet the
second call with the same arguments returns the fresh output 2 of the
re-executed callable, not the stored output, and appends a second
checkpoint: a cache hit alone does not take the replay path. -/
theorem C1_counterexample :
    c1FirstCall.result = CallResult.ok (PyVal.int 1) ∧
    (c1FirstCall.manager.get_checkpoint (PyVal.str "n")).map Checkpoint.output = some (PyVal.int 1) ∧
    c1SecondCall.result = CallResult.ok (PyVal.int 2) ∧
    c1SecondCall.result ≠ CallResult.ok (PyVal.int 1) ∧
    totalCps c1SecondCall.manager = 2 := by
  decide

/-- C1 amended: replay happens exactly when the cached checkpoint's
shared_store_state is truthy (for reachable checkpoints, a non-empty
dict snapshot): then the call returns the stored output, the manager is
unchanged, and the outcome is the same for every wrapped callable - the
function is not executed.  A cache hit without such a snapshot takes the
record path instead. -/
theorem C1_amended_replay_needs_truthy_snapshot (node_id : String) (func : PyFunc) (m : StateManager) (h : Heap) (args : List PyVal) (kwargs : PyDict) (exet nowv : PyVal) (cp : Checkpoint)
    (hm : m.get_checkpoint (PyVal.str node_id) = some cp)
    (ht : truthy h cp.shared_store_state = true)
    (hs : cp.shared_store_state.isMappingShaped = true) :
    (wrapper node_id func m h args kwargs exet nowv).result = CallResult.ok cp.output ∧
    (wrapper node_id func m h args kwargs exet nowv).manager = m ∧
    ∀ g : PyFunc, wrapper node_id g m h args kwargs exet nowv = wrapper node_id func m h args kwargs exet nowv := by
  rw [wrapper_replay_branch node_id func m h args kwargs exet nowv cp hm ht]
  refine ⟨(replayPath_result cp m h args hs).1, (replayPath_result cp m h args hs).2, ?_⟩
  intro g
  rw [wrapper_replay_branch node_id g m h args kwargs exet nowv cp hm ht]

def c1wCp : Checkpoint :=
  { session_id := PyVal.int 100, inputs := PyVal.none, output := PyVal.str "out",
    execution_time := PyVal.int 0, timestamp := PyVal.int 7,
    status := PyVal.status NodeStatus.RUN, error := PyVal.none,
    shared_store_state := PyVal.dict 0 }

def c1wMgr : StateManager :=
  { nodes := [(PyVal.str "n", { id := PyVal.str "n", checkpoints := [c1wCp] })], session_id := 100 }

/-- C1 witness: with a cached checkpoint holding a non-empty dict
snapshot, the call returns the stored output and leaves the manager
unchanged. -/
theorem C1_witness :
    (wrapper "n" c1Func1 c1wMgr [[("x", PyVal.int 1)]] [PyVal.dict 0] [] (PyVal.int 0) (PyVal.int 9)).result = CallResult.ok (PyVal.str "out") ∧
    (wrapper "n" c1Func1 c1wMgr [[("x", PyVal.int 1)]] [PyVal.dict 0] [] (PyVal.int 0) (PyVal.int 9)).manager = c1wMgr :=
  ⟨(C1_amended_replay_needs_truthy_snapshot "n" c1Func1 c1wMgr [[("x", PyVal.int 1)]] [PyVal.dict 0] [] (PyVal.int 0) (PyVal.int 9) c1wCp (by decide) (by decide) (by decide)).1,
   (C1_amended_replay_needs_truthy_snapshot "n" c1Func1 c1wMgr [[("x", PyVal.int 1)]] [PyVal.dict 0] [] (PyVal.int 0) (PyVal.int 9) c1wCp (by decide) (by decide) (by decide)).2.1⟩

theorem init_shared_of_falsy (h : Heap) (session_id inputs output execution_time timestamp status error shared_store_state nowv : PyVal) (hfal : truthy h shared_store_state = false) :
    (Checkpoint.init h session_id inputs output execution_time timestamp status error shared_store_state nowv).shared_store_state = PyVal.none := by
  simp [Checkpoint.init, hfal]

theorem recordPath_ok_shape (node_id : String) (func : PyFunc) (m : StateManager) (h h1 : Heap) (args : List PyVal) (kwargs : PyDict) (exet nowv output : PyVal)
    (hf : func h args kwargs = (h1, CallResult.ok output))
    (hser : serCheck h1 args kwargs ≠ SerResult.circularErr) :
    ∃ inputs : PyVal, recordPath node_id func m h args kwargs exet nowv =
      ⟨m.add_checkpoint h1 (PyVal.str node_id) inputs output exet ((find_shared args).getD PyVal.none) nowv, h1, CallResult.ok output⟩ := by
  cases hs : serCheck h1 args kwargs with
  | ok => exact ⟨inputsVal args kwargs, recordPath_ok_serOk node_id func m h h1 args kwargs exet nowv output hf hs⟩
  | typeErr => exact ⟨fallbackInputs h1 args kwargs, recordPath_ok_serFallback node_id func m h h1 args kwargs exet nowv output hf hs⟩
  | circularErr => exact absurd hs hser

theorem wrapper_records_after_snapshot_none (node_id : String) (m : StateManager) (cp : Checkpoint)
    (hm : m.get_checkpoint (PyVal.str node_id) = some cp)
    (hn : cp.shared_store_state = PyVal.none) :
    ∀ (g : PyFunc) (h2 : Heap) (args2 : List PyVal) (kwargs2 : PyDict) (exet2 nowv2 : PyVal),
      wrapper node_id g m h2 args2 kwargs2 exet2 nowv2 = recordPath node_id g m h2 args2 kwargs2 exet2 nowv2 := by
  intro g h2 args2 kwargs2 exet2 nowv2
  apply wrapper_record_branch
  unfold replayCondB
  rw [hm]
  show truthy h2 cp.shared_store_state = false
  rw [hn]
  rfl

def c8Func1 : PyFunc := fun h _ _ => (h, CallResult.ok (PyVal.int 10))

def c8Func2 : PyFunc := fun h _ _ => (h, CallResult.ok (PyVal.int 20))

def c8FirstCall : WrapResult :=
  wrapper "p" c8Func1 { nodes := [], session_id := 42 } [] [PyVal.str "arg"] [] (PyVal.int 0) (PyVal.int 7)

def c8SecondCall : WrapResult :=
  wrapper "p" c8Func2 c8FirstCall.manager [] [PyVal.str "arg"] [] (PyVal.int 0) (PyVal.int 8)

/-- C8 counterexample: with no mapping-shaped positional argument the
first call records successfully (output 10, one checkpoint), yet the
subsequent call does not short-circuit: it executes the callable again,
returning the fresh output 20 and appending a second checkpoint, so
output-only replay never happens for such callables. -/
theorem C8_counterexample :
    c8FirstCall.result = CallResult.ok (PyVal.int 10) ∧
    (c8FirstCall.manager.get_checkpoint (PyVal.str "p")).map Checkpoint.output = some (PyVal.int 10) ∧
    c8SecondCall.result = CallResult.ok (PyVal.int 20) ∧
    c8SecondCall.result ≠ CallResult.ok (PyVal.int 10) ∧
    totalCps c8SecondCall.manager = 2 := by
  decide

/-- C8 amended: a callable with no mapping-shaped positional argument
records a checkpoint whose shared_store_state is None, and therefore no
later call on the resulting manager ever takes the replay path: each
one runs the record branch, re-executing the callable. -/
theorem C8_amended_no_mapping_never_replays (node_id : String) (func : PyFunc) (m : StateManager) (h h1 : Heap) (args : List PyVal) (kwargs : PyDict) (exet nowv output : PyVal)
    (hns : find_shared args = Option.none)
    (hc : replayCondB m h node_id = false)
    (hf : func h args kwargs = (h1, CallResult.ok output))
    (hser : serCheck h1 args kwargs ≠ SerResult.circularErr) :
    (wrapper node_id func m h args kwargs exet nowv).result = CallResult.ok output ∧
    ((wrapper node_id func m h args kwargs exet nowv).manager.get_checkpoint (PyVal.str node_id)).isSome = true ∧
    (∀ cp : Checkpoint, (wrapper node_id func m h args kwargs exet nowv).manager.get_checkpoint (PyVal.str node_id) = some cp → cp.shared_store_state = PyVal.none) ∧
    (∀ (g : PyFunc) (h2 : Heap) (args2 : List PyVal) (kwargs2 : PyDict) (exet2 nowv2 : PyVal),
        wrapper node_id g (wrapper node_id func m h args kwargs exet nowv).manager h2 args2 kwargs2 exet2 nowv2 =
          recordPath node_id g (wrapper node_id func m h args kwargs exet nowv).manager h2 args2 kwargs2 exet2 nowv2) := by
  obtain ⟨inputs, heq⟩ := recordPath_ok_shape node_id func m h h1 args kwargs exet nowv output hf hser
  have hw : wrapper node_id func m h args kwargs exet nowv =
      ⟨m.add_checkpoint h1 (PyVal.str node_id) inputs output exet PyVal.none nowv, h1, CallResult.ok output⟩ := by
    rw [wrapper_record_branch node_id func m h args kwargs exet nowv hc, heq, hns]
    rfl
  rw [hw]
  have hget := get_checkpoint_add m h1 (PyVal.str node_id) inputs output exet PyVal.none nowv
  have hsn : (Checkpoint.init h1 (PyVal.int m.session_id) inputs output exet PyVal.none (PyVal.status NodeStatus.RUN) PyVal.none PyVal.none nowv).shared_store_state = PyVal.none :=
    init_shared_of_falsy h1 (PyVal.int m.session_id) inputs output exet PyVal.none (PyVal.status NodeStatus.RUN) PyVal.none PyVal.none nowv rfl
  refine ⟨rfl, ?_, ?_, ?_⟩
  · show ((m.add_checkpoint h1 (PyVal.str node_id) inputs output exet PyVal.none nowv).get_checkpoint (PyVal.str node_id)).isSome = true
    rw [hget]
    rfl
  · intro cp hcp
    have hcp2 : (m.add_checkpoint h1 (PyVal.str node_id) inputs output exet PyVal.none nowv).get_checkpoint (PyVal.str node_id) = some cp := hcp
    rw [hget] at hcp2
    rw [← Option.some.inj hcp2]
    exact hsn
  · intro g h2 args2 kwargs2 exet2 nowv2
    exact wrapper_records_after_snapshot_none node_id _ _ hget hsn g h2 args2 kwargs2 exet2 nowv2

/-- C8 witness: the amended statement at a concrete no-mapping call. -/
theorem C8_witness :
    (wrapper "p" c8Func1 { nodes := [], session_id := 42 } [] [PyVal.str "arg"] [] (PyVal.int 0) (PyVal.int 7)).result = CallResult.ok (PyVal.int 10) ∧
    (∀ cp : Checkpoint, (wrapper "p" c8Func1 { nodes := [], session_id := 42 } [] [PyVal.str "arg"] [] (PyVal.int 0) (PyVal.int 7)).manager.get_checkpoint (PyVal.str "p") = some cp → cp.shared_store_state = PyVal.none) :=
  ⟨(C8_amended_no_mapping_never_replays "p" c8Func1 { nodes := [], session_id := 42 } [] [] [PyVal.str "arg"] [] (PyVal.int 0) (PyVal.int 7) (PyVal.int 10) (by decide) (by decide) rfl (by decide)).1,
   (C8_amended_no_mapping_never_replays "p" c8Func1 { nodes := [], session_id := 42 } [] [] [PyVal.str "arg"] [] (PyVal.int 0) (PyVal.int 7) (PyVal.int 10) (by decide) (by decide) rfl (by decide)).2.2.1⟩

/-- C10: the Checkpoint constructor coerces falsy optionals (a falsy
error becomes None, a falsy timestamp becomes the current time, a falsy
snapshot - in particular a dict left empty - becomes None); hence a
record whose shared dict ends the call empty stores no snapshot, and
every later call on the resulting manager takes the record branch and
re-executes the callable. -/
theorem C10_falsy_coercions_empty_snapshot_rerun :
    (∀ (h0 : Heap) (sid i o e ts st er sh now : PyVal), truthy h0 er = false →
        (Checkpoint.init h0 sid i o e ts st er sh now).error = PyVal.none) ∧
    (∀ (h0 : Heap) (sid i o e ts st er sh now : PyVal), truthy h0 ts = false →
        (Checkpoint.init h0 sid i o e ts st er sh now).timestamp = now) ∧
    (∀ (h0 : Heap) (sid i o e ts st er sh now : PyVal), truthy h0 sh = false →
        (Checkpoint.init h0 sid i o e ts st er sh now).shared_store_state = PyVal.none) ∧
    (∀ (node_id : String) (func : PyFunc) (m : StateManager) (h h1 : Heap) (args : List PyVal) (kwargs : PyDict) (exet nowv output : PyVal) (a : Nat),
        replayCondB m h node_id = false →
        func h args kwargs = (h1, CallResult.ok output) →
        find_shared args = some (PyVal.dict a) →
        heapGet h1 a = [] →
        serCheck h1 args kwargs ≠ SerResult.circularErr →
        (wrapper node_id func m h args kwargs exet nowv).result = CallResult.ok output ∧
        ((wrapper node_id func m h args kwargs exet nowv).manager.get_checkpoint (PyVal.str node_id)).isSome = true ∧
        (∀ cp : Checkpoint, (wrapper node_id func m h args kwargs exet nowv).manager.get_checkpoint (PyVal.str node_id) = some cp → cp.shared_store_state = PyVal.none) ∧
        (∀ (g : PyFunc) (h2 : Heap) (args2 : List PyVal) (kwargs2 : PyDict) (exet2 nowv2 : PyVal),
            wrapper node_id g (wrapper node_id func m h args kwargs exet nowv).manager h2 args2 kwargs2 exet2 nowv2 =
              recordPath node_id g (wrapper node_id func m h args kwargs exet nowv).manager h2 args2 kwargs2 exet2 nowv2)) := by
  refine ⟨?_, ?_, ?_, ?_⟩
  · intro h0 sid i o e ts st er sh now her
    simp [Checkpoint.init, her]
  · intro h0 sid i o e ts st er sh now hts
    simp [Checkpoint.init, hts]
  · intro h0 sid i o e ts st er sh now hsh
    simp [Checkpoint.init, hsh]
  · intro node_id func m h h1 args kwargs exet nowv output a hc hf hsh hempty hser
    obtain ⟨inputs, heq⟩ := recordPath_ok_shape node_id func m h h1 args kwargs exet nowv output hf hser
    have hw : wrapper node_id func m h args kwargs exet nowv =
        ⟨m.add_checkpoint h1 (PyVal.str node_id) inputs output exet (PyVal.dict a) nowv, h1, CallResult.ok output⟩ := by
      rw [wrapper_record_branch node_id func m h args kwargs exet nowv hc, heq, hsh]
      rfl
    rw [hw]
    have hfal : truthy h1 (PyVal.dict a) = false := by
      simp [truthy, hempty]
    have hget := get_checkpoint_add m h1 (PyVal.str node_id) inputs output exet (PyVal.dict a) nowv
    have hsn : (Checkpoint.init h1 (PyVal.int m.session_id) inputs output exet PyVal.none (PyVal.status NodeStatus.RUN) PyVal.none (PyVal.dict a) nowv).shared_store_state = PyVal.none :=
      init_shared_of_falsy h1 (PyVal.int m.session_id) inputs output exet PyVal.none (PyVal.status NodeStatus.RUN) PyVal.none (PyVal.dict a) nowv hfal
    refine ⟨rfl, ?_, ?_, ?_⟩
    · show ((m.add_checkpoint h1 (PyVal.str node_id) inputs output exet (PyVal.dict a) nowv).get_checkpoint (PyVal.str node_id)).isSome = true
      rw [hget]
      rfl
    · intro cp hcp
      have hcp2 : (m.add_checkpoint h1 (PyVal.str node_id) inputs output exet (PyVal.dict a) nowv).get_checkpoint (PyVal.str node_id) = some cp := hcp
      rw [hget] at hcp2
      rw [← Option.some.inj hcp2]
      exact hsn
    · intro g h2 args2 kwargs2 exet2 nowv2
      exact wrapper_records_after_snapshot_none node_id _ _ hget hsn g h2 args2 kwargs2 exet2 nowv2

def c10Func : PyFunc := fun h _ _ => (heapSet h 0 [], CallResult.ok (PyVal.int 3))

/-- C10 witness: a falsy error string is coerced to None, and a call
that empties its shared dict records a checkpoint and still completes
with the callable's output. -/
theorem C10_witness :
    truthy [] (PyVal.str "") = false ∧
    (Checkpoint.init [] (PyVal.int 1) PyVal.none PyVal.none PyVal.none PyVal.none (PyVal.status NodeStatus.RUN) (PyVal.str "") (PyVal.dict 5) (PyVal.int 9)).error = PyVal.none ∧
    (wrapper "e" c10Func { nodes := [], session_id := 100 } [[("x", PyVal.int 1)]] [PyVal.dict 0] [] (PyVal.int 0) (PyVal.int 7)).result = CallResult.ok (PyVal.int 3) ∧
    ((wrapper "e" c10Func { nodes := [], session_id := 100 } [[("x", PyVal.int 1)]] [PyVal.dict 0] [] (PyVal.int 0) (PyVal.int 7)).manager.get_checkpoint (PyVal.str "e")).isSome = true :=
  ⟨by decide,
   C10_falsy_coercions_empty_snapshot_rerun.1 [] (PyVal.int 1) PyVal.none PyVal.none PyVal.none PyVal.none (PyVal.status NodeStatus.RUN) (PyVal.str "") (PyVal.dict 5) (PyVal.int 9) (by decide),
   (C10_falsy_coercions_empty_snapshot_rerun.2.2.2 "e" c10Func { nodes := [], session_id := 100 } [[("x", PyVal.int 1)]] [[]] [PyVal.dict 0] [] (PyVal.int 0) (PyVal.int 7) (PyVal.int 3) 0 (by decide) rfl (by decide) (by decide) (by decide)).1,
   (C10_falsy_coercions_empty_snapshot_rerun.2.2.2 "e" c10Func { nodes := [], session_id := 100 } [[("x", PyVal.int 1)]] [[]] [PyVal.dict 0] [] (PyVal.int 0) (PyVal.int 7) (PyVal.int 3) 0 (by decide) rfl (by decide) (by decide) (by decide)).2.1⟩

def c7Heap : Heap := [[("self", PyVal.dict 0)]]

def c7Func : PyFunc := fun h _ _ => (h, CallResult.ok (PyVal.int 1))

def c7Run : WrapResult :=
  wrapper "c" c7Func { nodes := [], session_id := 100 } c7Heap [PyVal.dict 0] [] (PyVal.int 0) (PyVal.int 7)

/-- C7 counterexample: an argument holding a reference cycle (a dict
containing itself) cannot be serialized, json.dumps raises ValueError
(Circular reference detected), which the except clause for TypeError
and OverflowError does not catch: the call aborts after executing the
callable and no checkpoint is appended. -/
theorem C7_counterexample :
    serCheck c7Heap [PyVal.dict 0] [] = SerResult.circularErr ∧
    c7Run.result = CallResult.raised PyErr.valueErr ∧
    c7Run.manager = { nodes := [], session_id := 100 } ∧
    totalCps c7Run.manager = 0 := by
  decide

/-- C7 amended: an input serialization failure raising TypeError (or
OverflowError) is recovered: the call completes with the callable's
output and appends exactly one checkpoint whose inputs are the string
fallback record tagged unserializable; only a ValueError from a
circular reference escapes and aborts the call. -/
theorem C7_amended_fallback_on_typeerror (node_id : String) (func : PyFunc) (m : StateManager) (h h1 : Heap) (args : List PyVal) (kwargs : PyDict) (exet nowv output : PyVal)
    (hc : replayCondB m h node_id = false)
    (hf : func h args kwargs = (h1, CallResult.ok output))
    (hser : serCheck h1 args kwargs = SerResult.typeErr) :
    wrapper node_id func m h args kwargs exet nowv =
      ⟨m.add_checkpoint h1 (PyVal.str node_id) (fallbackInputs h1 args kwargs) output exet ((find_shared args).getD PyVal.none) nowv, h1, CallResult.ok output⟩ ∧
    totalCps (wrapper node_id func m h args kwargs exet nowv).manager = totalCps m + 1 ∧
    (∀ cp : Checkpoint, (wrapper node_id func m h args kwargs exet nowv).manager.get_checkpoint (PyVal.str node_id) = some cp →
        cp.inputs = fallbackInputs h1 args kwargs) := by
  have hw : wrapper node_id func m h args kwargs exet nowv =
      ⟨m.add_checkpoint h1 (PyVal.str node_id) (fallbackInputs h1 args kwargs) output exet ((find_shared args).getD PyVal.none) nowv, h1, CallResult.ok output⟩ := by
    rw [wrapper_record_branch node_id func m h args kwargs exet nowv hc]
    exact recordPath_ok_serFallback node_id func m h h1 args kwargs exet nowv output hf hser
  rw [hw]
  refine ⟨rfl, ?_, ?_⟩
  · exact totalCps_add m h1 (PyVal.str node_id) (fallbackInputs h1 args kwargs) output exet ((find_shared args).getD PyVal.none) nowv
  · intro cp hcp
    have hcp2 : (m.add_checkpoint h1 (PyVal.str node_id) (fallbackInputs h1 args kwargs) output exet ((find_shared args).getD PyVal.none) nowv).get_checkpoint (PyVal.str node_id) = some cp := hcp
    rw [get_checkpoint_add] at hcp2
    rw [← Option.some.inj hcp2]
    rfl

/-- C7 witness: a live handle among the arguments triggers the fallback:
the call completes, exactly one checkpoint is appended, and its stored
inputs carry the unserializable flag. -/
theorem C7_witness :
    serCheck [] [PyVal.handle "file"] [] = SerResult.typeErr ∧
    wrapper "u" c7Func { nodes := [], session_id := 100 } [] [PyVal.handle "file"] [] (PyVal.int 0) (PyVal.int 7) =
      ⟨StateManager.add_checkpoint { nodes := [], session_id := 100 } [] (PyVal.str "u") (fallbackInputs [] [PyVal.handle "file"] []) (PyVal.int 1) (PyVal.int 0) PyVal.none (PyVal.int 7), [], CallResult.ok (PyVal.int 1)⟩ ∧
    lookupField (match fallbackInputs [] [PyVal.handle "file"] [] with | PyVal.obj fs => fs | _ => []) "unserializable" = some (PyVal.bool true) :=
  ⟨by decide,
   (C7_amended_fallback_on_typeerror "u" c7Func { nodes := [], session_id := 100 } [] [] [PyVal.handle "file"] [] (PyVal.int 0) (PyVal.int 7) (PyVal.int 1) (by decide) rfl (by decide)).1,
   by decide⟩

def c2Heap : Heap := [[("x", PyVal.int 1)]]

def c2Func : PyFunc := fun h _ _ => (h, CallResult.ok (PyVal.int 7))

def c2Run : WrapResult :=
  wrapper "s" c2Func { nodes := [], session_id := 100 } c2Heap [PyVal.dict 0] [] (PyVal.int 0) (PyVal.int 5)

/-- C2: the snapshot stored by the record branch is the live dict
reference itself, not a deep copy: after the call the checkpoint holds
the reference of the shared dict, whose contents read back as recorded;
a mutation of the live dict performed after add_checkpoint has returned
changes what the stored snapshot denotes. -/
theorem C2_snapshot_aliases_live_dict :
    (c2Run.manager.get_checkpoint (PyVal.str "s")).map Checkpoint.shared_store_state = some (PyVal.dict 0) ∧
    asMapping c2Run.heap (PyVal.dict 0) = some [("x", PyVal.int 1)] ∧
    asMapping (heapSet c2Run.heap 0 [("x", PyVal.int 99)]) (PyVal.dict 0) = some [("x", PyVal.int 99)] := by
  decide

def c3Mgr : StateManager :=
  StateManager.add_checkpoint { nodes := [], session_id := 100 } [] (PyVal.str "n") (PyVal.int 1) (PyVal.int 2) (PyVal.int 0) PyVal.none (PyVal.int 5)

/-- C3: export is broken: on any manager holding at least one checkpoint
the inner json.dumps(self.nodes) meets Node class instances and raises
TypeError, so to_json fails; even on the empty manager the export
double-encodes nodes as the two-character string of an empty JSON
object, and importing that very document fails with TypeError, so no
manager round-trips. -/
theorem C3_export_broken_no_roundtrip :
    c3Mgr.nodes ≠ [] ∧
    StateManager.to_json c3Mgr = Except.error PyErr.typeErr ∧
    StateManager.to_json { nodes := [], session_id := 100 } = Except.ok (PyVal.obj [("session_id", PyVal.int 100), ("nodes", PyVal.str "\x7b\x7d")]) ∧
    (StateManager.checkpoints_from_file { nodes := [], session_id := 100 } (PyVal.obj [("session_id", PyVal.int 100), ("nodes", PyVal.str "\x7b\x7d")]) (PyVal.int 0)).snd = some PyErr.typeErr := by
  decide

def c4CpObj : PyVal :=
  PyVal.obj [("session_id", PyVal.int 100), ("inputs", PyVal.int 1), ("output", PyVal.int 2),
             ("execution_time", PyVal.int 0), ("timestamp", PyVal.int 5),
             ("status", PyVal.str "cached"), ("error", PyVal.str "boom"),
             ("sharedStateSnapshot", PyVal.obj [("x", PyVal.int 1)])]

def c4Doc : PyVal :=
  PyVal.obj [("session_id", PyVal.int 100),
             ("nodes", PyVal.list [PyVal.obj [("id", PyVal.str "n"), ("checkpoints", PyVal.list [c4CpObj])]])]

/-- C4: deserialization does not restore the status enum and drops the
optional snapshot: a document checkpoint carrying status "cached" and a
present sharedStateSnapshot imports to a checkpoint whose status is the
raw string (not the CACHED enum member) and whose shared_store_state is
None, the snapshot key never being read. -/
theorem C4_import_keeps_raw_status_drops_snapshot :
    parseNodes c4Doc (PyVal.int 0) =
      Except.ok [(PyVal.str "n",
        { id := PyVal.str "n",
          checkpoints := [{ session_id := PyVal.int 100, inputs := PyVal.int 1, output := PyVal.int 2,
                            execution_time := PyVal.int 0, timestamp := PyVal.int 5,
                            status := PyVal.str "cached", error := PyVal.str "boom",
                            shared_store_state := PyVal.none }] })] ∧
    PyVal.str "cached" ≠ PyVal.status NodeStatus.CACHED ∧
    subscript c4CpObj "sharedStateSnapshot" = Except.ok (PyVal.obj [("x", PyVal.int 1)]) := by
  decide

def c5Doc : PyVal :=
  PyVal.obj [("nodes", PyVal.list [PyVal.obj [("id", PyVal.str "n"),
    ("checkpoints", PyVal.list [PyVal.obj [("session_id", PyVal.str "oops"), ("inputs", PyVal.int 1),
      ("output", PyVal.int 2), ("execution_time", PyVal.str "fast"), ("timestamp", PyVal.int 5),
      ("status", PyVal.int 3), ("error", PyVal.none)]])]])]

/-- C5 counterexample: a structurally invalid document - the required
top-level session_id is absent and session_id, execution_time and
status of the stored checkpoint carry wrongly typed values - imports
without any error and replaces the nodes mapping. -/
theorem C5_counterexample :
    (StateManager.checkpoints_from_file { nodes := [], session_id := 100 } c5Doc (PyVal.int 0)).snd = Option.none ∧
    (StateManager.checkpoints_from_file { nodes := [], session_id := 100 } c5Doc (PyVal.int 0)).fst.nodes ≠ [] := by
  decide

/-- C5 amended: the import fails only when a required key is missing or
a container has the wrong shape (KeyError or TypeError standing for the
FormatError of the specification), and any failure leaves the nodes
mapping exactly as it was; wrongly typed leaf fields are accepted
silently. -/
theorem C5_amended_failure_atomic_missing_keys_fail :
    (∀ (m : StateManager) (data nowv : PyVal) (e : PyErr),
        parseNodes data nowv = Except.error e →
        StateManager.checkpoints_from_file m data nowv = (m, some e)) ∧
    (∀ (m : StateManager) (fs : PyDict) (nowv : PyVal),
        lookupField fs "nodes" = Option.none →
        StateManager.checkpoints_from_file m (PyVal.obj fs) nowv = (m, some PyErr.keyError)) ∧
    (∀ (m : StateManager) (nowv : PyVal) (k : Int),
        StateManager.checkpoints_from_file m (PyVal.int k) nowv = (m, some PyErr.typeErr)) := by
  refine ⟨?_, ?_, ?_⟩
  · intro m data nowv e hp
    unfold StateManager.checkpoints_from_file
    rw [hp]
  · intro m fs nowv hl
    unfold StateManager.checkpoints_from_file
    have hsub : subscript (PyVal.obj fs) "nodes" = Except.error PyErr.keyError := by
      show (match lookupField fs "nodes" with
            | some x => Except.ok x
            | Option.none => Except.error PyErr.keyError) = Except.error PyErr.keyError
      rw [hl]
    have hp : parseNodes (PyVal.obj fs) nowv = Except.error PyErr.keyError := by
      unfold parseNodes
      rw [hsub]
      rfl
    rw [hp]
  · intro m nowv k
    rfl

/-- C5 witness: a non-object document fails with TypeError and a
document without the nodes key fails with KeyError, both leaving the
manager untouched. -/
theorem C5_witness :
    parseNodes (PyVal.int 3) (PyVal.int 0) = Except.error PyErr.typeErr ∧
    StateManager.checkpoints_from_file { nodes := [], session_id := 100 } (PyVal.int 3) (PyVal.int 0) = ({ nodes := [], session_id := 100 }, some PyErr.typeErr) ∧
    StateManager.checkpoints_from_file { nodes := [], session_id := 100 } (PyVal.obj [("other", PyVal.int 1)]) (PyVal.int 0) = ({ nodes := [], session_id := 100 }, some PyErr.keyError) :=
  ⟨by decide,
   C5_amended_failure_atomic_missing_keys_fail.1 { nodes := [], session_id := 100 } (PyVal.int 3) (PyVal.int 0) PyErr.typeErr (by decide),
   C5_amended_failure_atomic_missing_keys_fail.2.1 { nodes := [], session_id := 100 } [("other", PyVal.int 1)] (PyVal.int 0) (by decide)⟩
